import Mathlib

/-!
Verification of light-whisper (src-tauri): a shallow embedding of the
audio capture, resampling, speech-to-text engine selection and the
recording orchestrator, with theorems about the spec's claims.

Floating-point values (f32/f64 samples) are embedded as exact rationals;
machine truncation `as usize` of a nonnegative double is embedded as
Nat.floor.
-/

/-- Loop body of `resample` (src/src-tauri/src/audio.rs, lines 214-227):
`src_idx = i * ratio`, `idx = src_idx as usize`, `frac = src_idx - idx`,
then linear interpolation between `samples[idx]` and `samples[idx + 1]`,
falling back to the single sample or to 0.0 when out of bounds.
`step` is the source's local variable `ratio = source_rate / target_rate`. -/
def interpAt (samples : List ℚ) (step : ℚ) (i : Nat) : ℚ :=
  let src_idx : ℚ := (i : ℚ) * step
  let idx : Nat := ⌊src_idx⌋₊
  let frac : ℚ := src_idx - (idx : ℚ)
  if idx + 1 < samples.length then
    samples.getD idx 0 * (1 - frac) + samples.getD (idx + 1) 0 * frac
  else if idx < samples.length then
    samples.getD idx 0
  else
    0

/-- `resample` (src/src-tauri/src/audio.rs, lines 205-231): if the rates are
equal, return the input unchanged; otherwise `ratio = source_rate / target_rate`
(double precision, embedded exactly), `output_len = (len / ratio) as usize`,
and one interpolated sample per output index. -/
def resample (samples : List ℚ) (source_rate target_rate : Nat) : List ℚ :=
  if source_rate = target_rate then
    samples
  else
    let step : ℚ := (source_rate : ℚ) / (target_rate : ℚ)
    let output_len : Nat := ⌊(samples.length : ℚ) / step⌋₊
    (List.range output_len).map (interpAt samples step)

/-- `AudioRecorder` (src/src-tauri/src/audio.rs, lines 7-13): shared sample
buffer, recording flag, stored sample rate, and the worker-thread handle
(abstracted to `Option Unit`: present or absent). -/
structure AudioRecorder where
  samples : List ℚ
  recording : Bool
  sample_rate : Nat
  thread_handle : Option Unit

/-- `AudioRecorder::new` (audio.rs, lines 21-28). -/
def AudioRecorder.new : AudioRecorder :=
  { samples := [], recording := false, sample_rate := 0, thread_handle := none }

/-- `AudioRecorder::is_recording` (audio.rs, lines 30-32). -/
def AudioRecorder.is_recording (rec : AudioRecorder) : Bool :=
  rec.recording

/-- `AudioRecorder::start` (audio.rs, lines 34-55): rejects when already
recording; otherwise clears the buffer, sets the flag, and spawns the worker
thread (the spawned capture itself is hardware interaction, outside the
model; the handle becomes present). -/
def AudioRecorder.start (rec : AudioRecorder) (_device_name : String) :
    AudioRecorder × Except String Unit :=
  if rec.is_recording then
    (rec, .error "Already recording")
  else
    ({ samples := [], recording := true, sample_rate := rec.sample_rate,
       thread_handle := some () },
     .ok ())

/-- `AudioRecorder::stop` (audio.rs, lines 57-73): stores `false` into the
flag, joins and clears the worker-thread handle, reads the sample rate, and
drains the buffer with `mem::take`; errors when no samples were captured. -/
def AudioRecorder.stop (rec : AudioRecorder) :
    AudioRecorder × Except String (List ℚ × Nat) :=
  let rec' : AudioRecorder :=
    { samples := [], recording := false, sample_rate := rec.sample_rate,
      thread_handle := none }
  if rec.samples.isEmpty then
    (rec', .error "No audio recorded")
  else
    (rec', .ok (rec.samples, rec.sample_rate))

/-- `WhisperEngine` (src/src-tauri/src/stt.rs, lines 6-8): an optional
loaded whisper context. -/
structure WhisperEngine where
  ctx : Option Unit

/-- `WhisperEngine::new` (stt.rs, lines 11-17). -/
def WhisperEngine.new : WhisperEngine := { ctx := none }

/-- `WhisperEngine::load_model` (stt.rs, lines 19-32): on a failed attempt
(missing path or context-creation failure) the stored context is unchanged;
on success the context becomes present. -/
def WhisperEngine.load_model (e : WhisperEngine) (outcome : Except String Unit) :
    WhisperEngine × Except String Unit :=
  match outcome with
  | .error msg => (e, .error msg)
  | .ok () => ({ ctx := some () }, .ok ())

/-- `WhisperEngine::is_loaded` (stt.rs, lines 34-36). -/
def WhisperEngine.is_loaded (e : WhisperEngine) : Bool :=
  e.ctx.isSome

/-- `WhisperEngine::transcribe` (stt.rs, lines 38-76): errors before touching
the backend when no context is loaded; otherwise invokes the native backend
(given here as a function) on the samples and language. The Bool records
whether the backend was invoked. -/
def WhisperEngine.transcribe (e : WhisperEngine)
    (backend : List ℚ → String → Except String String)
    (samples : List ℚ) (language : String) : Except String String × Bool :=
  match e.ctx with
  | none => (.error "Whisper model not loaded", false)
  | some _ => (backend samples language, true)

/-- `ParakeetEngine` (stt.rs, lines 79-81): an optional loaded Parakeet model. -/
structure ParakeetEngine where
  model : Option Unit

/-- `ParakeetEngine::new` (stt.rs, lines 84-86). -/
def ParakeetEngine.new : ParakeetEngine := { model := none }

/-- `ParakeetEngine::load_model` (stt.rs, lines 89-101). -/
def ParakeetEngine.load_model (e : ParakeetEngine) (outcome : Except String Unit) :
    ParakeetEngine × Except String Unit :=
  match outcome with
  | .error msg => (e, .error msg)
  | .ok () => ({ model := some () }, .ok ())

/-- `ParakeetEngine::is_loaded` (stt.rs, lines 103-105). -/
def ParakeetEngine.is_loaded (e : ParakeetEngine) : Bool :=
  e.model.isSome

/-- `ParakeetEngine::transcribe` (stt.rs, lines 108-116). -/
def ParakeetEngine.transcribe (e : ParakeetEngine)
    (backend : List ℚ → String → Except String String)
    (samples : List ℚ) (language : String) : Except String String × Bool :=
  match e.model with
  | none => (.error "Parakeet model not loaded", false)
  | some _ => (backend samples language, true)

/-- `EngineInner` (stt.rs, lines 121-124): the tagged union of the two
backend variants. -/
inductive EngineInner where
  | whisper (w : WhisperEngine)
  | parakeet (p : ParakeetEngine)

/-- `SttEngine` (stt.rs, lines 126-128). -/
structure SttEngine where
  inner : EngineInner

/-- `SttEngine::new_whisper` (stt.rs, lines 131-135). -/
def SttEngine.new_whisper : SttEngine := { inner := .whisper WhisperEngine.new }

/-- `SttEngine::new_parakeet` (stt.rs, lines 137-141). -/
def SttEngine.new_parakeet : SttEngine := { inner := .parakeet ParakeetEngine.new }

/-- `SttEngine::from_engine_name` (stt.rs, lines 143-148). -/
def SttEngine.from_engine_name (name : String) : SttEngine :=
  if name = "parakeet" then SttEngine.new_parakeet else SttEngine.new_whisper

/-- `SttEngine::load_model` (stt.rs, lines 150-155). -/
def SttEngine.load_model (e : SttEngine) (outcome : Except String Unit) :
    SttEngine × Except String Unit :=
  match e.inner with
  | .whisper w =>
      let r := WhisperEngine.load_model w outcome
      ({ inner := .whisper r.1 }, r.2)
  | .parakeet p =>
      let r := ParakeetEngine.load_model p outcome
      ({ inner := .parakeet r.1 }, r.2)

/-- `SttEngine::is_loaded` (stt.rs, lines 157-162). -/
def SttEngine.is_loaded (e : SttEngine) : Bool :=
  match e.inner with
  | .whisper w => w.is_loaded
  | .parakeet p => p.is_loaded

/-- `SttEngine::transcribe` (stt.rs, lines 164-169). -/
def SttEngine.transcribe (e : SttEngine)
    (backend : List ℚ → String → Except String String)
    (samples : List ℚ) (language : String) : Except String String × Bool :=
  match e.inner with
  | .whisper w => w.transcribe backend samples language
  | .parakeet p => p.transcribe backend samples language

/-- A sequence of `load_model` attempts, applied in order. -/
def SttEngine.runLoads (e : SttEngine) (outcomes : List (Except String Unit)) :
    SttEngine :=
  outcomes.foldl (fun acc o => (acc.load_model o).1) e

/-- The silence error message of `do_toggle_recording`
(src/src-tauri/src/recording.rs, lines 68-71), split around the configured
device name that the `format!` call interpolates. -/
def silenceMsgHead : String := "No audio detected (device: \""

/-- The tail of the silence error message after the device name. -/
def silenceMsgTail : String :=
  "\"). Check that the device is connected, or grant microphone access in System Settings > Privacy & Security > Microphone"

/-- The crash error message (recording.rs, line 106). -/
def crashErrorMsg : String :=
  "Transcription crashed — try a different STT engine or model"

/-- The not-loaded hint returned inside the guarded closure (recording.rs,
line 83). -/
def notLoadedHint : String :=
  "STT engine not loaded — download a model in Settings"

/-- The mean of the squared samples (recording.rs, lines 61-65): `0.0` for an
empty buffer, else `sum(s * s) / len`. The code takes the square root of this
to obtain the RMS. -/
def meanSquare (samples : List ℚ) : ℚ :=
  if samples.isEmpty then 0
  else (samples.map (fun s => s * s)).sum / (samples.length : ℚ)

/-- The near-silence threshold `1e-6` on the RMS (recording.rs, line 66). -/
def silenceThreshold : ℚ := 1 / 1000000

/-- The silence test `rms < 1e-6` (recording.rs, line 66). Since
`rms = sqrt(meanSquare)` and both sides are nonnegative, `sqrt(m) < c` holds
exactly when `m < c^2`; the embedding compares the squares to stay within ℚ. -/
def isNearSilent (samples : List ℚ) : Bool :=
  decide (meanSquare samples < silenceThreshold ^ 2)

/-- Outcome of one call into `SttEngine::transcribe` as observed at the
`catch_unwind` boundary (recording.rs, lines 80-86): a normal result, a
normal error, or a panic raised inside the native call. -/
inductive TranscribeOutcome where
  | ok (text : String)
  | err (msg : String)
  | panic

/-- What the toggle-stop path of `do_toggle_recording` did: the recorder it
leaves behind, the messages passed to `emit_error` in order, whether
`SttEngine::transcribe` was entered, and the text handed to the paste
collaborator (if any). -/
structure ToggleStopResult where
  recorder : AudioRecorder
  errorEvents : List String
  transcribeCalled : Bool
  handedToPaste : Option String

/-- The stop branch of `do_toggle_recording` (recording.rs, lines 47-110):
stops the recorder; on stop error emits one error; otherwise checks raw-sample
RMS against the silence threshold and emits the device-naming error on
silence; otherwise resamples to 16 kHz and runs the transcription inside the
`catch_unwind` boundary, converting a panic into the crash error event; on
nonempty text hands it to the paste collaborator, emitting a paste error on
failure. `transcribeFn` is the engine's native call, `pasteOutcome` the paste
collaborator's answer — both live outside the embedding. -/
def do_toggle_stop (rec : AudioRecorder) (device language : String)
    (engineLoaded : Bool)
    (transcribeFn : List ℚ → String → TranscribeOutcome)
    (pasteOutcome : Except String Unit) : ToggleStopResult :=
  let rec' := (rec.stop).1
  match (rec.stop).2 with
  | .error e =>
      { recorder := rec', errorEvents := ["Recording failed: " ++ e],
        transcribeCalled := false, handedToPaste := none }
  | .ok (samples, sample_rate) =>
      if isNearSilent samples then
        { recorder := rec',
          errorEvents := [silenceMsgHead ++ device ++ silenceMsgTail],
          transcribeCalled := false, handedToPaste := none }
      else
        let samples_16k := resample samples sample_rate 16000
        if engineLoaded then
          match transcribeFn samples_16k language with
          | .ok text =>
              if text.isEmpty then
                { recorder := rec', errorEvents := [],
                  transcribeCalled := true, handedToPaste := none }
              else
                match pasteOutcome with
                | .ok () =>
                    { recorder := rec', errorEvents := [],
                      transcribeCalled := true, handedToPaste := some text }
                | .error e =>
                    { recorder := rec',
                      errorEvents := ["Paste failed: " ++ e ++ ". On macOS, enable Accessibility in System Settings > Privacy & Security > Accessibility"],
                      transcribeCalled := true, handedToPaste := some text }
          | .err e =>
              { recorder := rec',
                errorEvents := ["Transcription failed: " ++ e],
                transcribeCalled := true, handedToPaste := none }
          | .panic =>
              { recorder := rec', errorEvents := [crashErrorMsg],
                transcribeCalled := true, handedToPaste := none }
        else
          { recorder := rec',
            errorEvents := ["Transcription failed: " ++ notLoadedHint],
            transcribeCalled := false, handedToPaste := none }

/-- Helper: the equal-rate early return of `resample` gives back the input. -/
lemma resample_same_rate (x : List ℚ) (r : Nat) : resample x r r = x := by
  simp [resample]

/-- Helper: the exact output length of `resample` at distinct positive rates. -/
lemma resample_length_eq (x : List ℚ) (s t : Nat) (hs : 0 < s) (ht : 0 < t)
    (hst : s ≠ t) : (resample x s t).length = x.length * t / s := by
  have hs0 : ((s : ℚ)) ≠ 0 := by exact_mod_cast hs.ne'
  have ht0 : ((t : ℚ)) ≠ 0 := by exact_mod_cast ht.ne'
  have hdiv : (x.length : ℚ) / ((s : ℚ) / (t : ℚ)) = ((x.length * t : Nat) : ℚ) / (s : ℚ) := by
    push_cast
    field_simp
  simp only [resample, if_neg hst, List.length_map, List.length_range]
  rw [hdiv, Nat.floor_div_nat, Nat.floor_natCast]

/-- C3: for every sample sequence `x` and every rate `r`,
`resample(x, r, r)` returns `x` itself (the input unchanged). -/
theorem resample_same_rate_id (x : List ℚ) (r : Nat) : resample x r r = x :=
  resample_same_rate x r

/-- C4: for positive rates, the length of `resample(x, s, t)` differs from
`floor(len(x) * t / s)` by at most 1 (in fact it is exactly equal when the
arithmetic is exact). -/
theorem resample_length_within_one (x : List ℚ) (s t : Nat)
    (hs : 0 < s) (ht : 0 < t) :
    Nat.dist (resample x s t).length (x.length * t / s) ≤ 1 := by
  by_cases hst : s = t
  · subst hst
    rw [resample_same_rate, Nat.mul_div_cancel _ hs]
    simp [Nat.dist]
  · rw [resample_length_eq x s t hs ht hst]
    simp [Nat.dist]

/-- Witness for C4 at `x = [1, 2, 3]`, `s = 3`, `t = 2`. -/
theorem resample_length_within_one_witness :
    Nat.dist (resample [(1 : ℚ), 2, 3] 3 2).length ((3 : Nat) * 2 / 3) ≤ 1 :=
  resample_length_within_one [(1 : ℚ), 2, 3] 3 2 (by decide) (by decide)

/-- Helper: a convex combination of two values lies between their min and max. -/
lemma convex_comb_between (a b f : ℚ) (h0 : 0 ≤ f) (h1 : f ≤ 1) :
    min a b ≤ a * (1 - f) + b * f ∧ a * (1 - f) + b * f ≤ max a b := by
  constructor
  · have ha : min a b * (1 - f) ≤ a * (1 - f) :=
      mul_le_mul_of_nonneg_right (min_le_left a b) (by linarith)
    have hb : min a b * f ≤ b * f :=
      mul_le_mul_of_nonneg_right (min_le_right a b) h0
    nlinarith
  · have ha : a * (1 - f) ≤ max a b * (1 - f) :=
      mul_le_mul_of_nonneg_right (le_max_left a b) (by linarith)
    have hb : b * f ≤ max a b * f :=
      mul_le_mul_of_nonneg_right (le_max_right a b) h0
    nlinarith

/-- C5: at distinct rates, each output sample of `resample` at an interior
index `i` — where both `floor(i * ratio)` and `floor(i * ratio) + 1` are in
bounds — lies between the min and the max of the two neighboring source
samples, inclusive. -/
theorem resample_interp_bounded (x : List ℚ) (s t : Nat) (hst : s ≠ t) (i : Nat)
    (hi : i < (resample x s t).length)
    (hin : ⌊(i : ℚ) * ((s : ℚ) / (t : ℚ))⌋₊ + 1 < x.length) :
    min (x.getD ⌊(i : ℚ) * ((s : ℚ) / (t : ℚ))⌋₊ 0)
        (x.getD (⌊(i : ℚ) * ((s : ℚ) / (t : ℚ))⌋₊ + 1) 0)
      ≤ (resample x s t).getD i 0 ∧
    (resample x s t).getD i 0
      ≤ max (x.getD ⌊(i : ℚ) * ((s : ℚ) / (t : ℚ))⌋₊ 0)
            (x.getD (⌊(i : ℚ) * ((s : ℚ) / (t : ℚ))⌋₊ + 1) 0) := by
  have hres : resample x s t =
      (List.range ⌊(x.length : ℚ) / ((s : ℚ) / (t : ℚ))⌋₊).map
        (interpAt x ((s : ℚ) / (t : ℚ))) := by
    simp [resample, if_neg hst]
  have hlen : i < ⌊(x.length : ℚ) / ((s : ℚ) / (t : ℚ))⌋₊ := by
    simpa [hres] using hi
  have hget : (resample x s t).getD i 0 = interpAt x ((s : ℚ) / (t : ℚ)) i := by
    rw [List.getD_eq_getElem?_getD, hres, List.getElem?_map,
      List.getElem?_range hlen]
    rfl
  have hstep : (0 : ℚ) ≤ (s : ℚ) / (t : ℚ) :=
    div_nonneg (Nat.cast_nonneg s) (Nat.cast_nonneg t)
  have hsrc : (0 : ℚ) ≤ (i : ℚ) * ((s : ℚ) / (t : ℚ)) :=
    mul_nonneg (Nat.cast_nonneg i) hstep
  have hf0 : (0 : ℚ) ≤ (i : ℚ) * ((s : ℚ) / (t : ℚ))
      - (⌊(i : ℚ) * ((s : ℚ) / (t : ℚ))⌋₊ : ℚ) := by
    have := Nat.floor_le hsrc
    linarith
  have hf1 : (i : ℚ) * ((s : ℚ) / (t : ℚ))
      - (⌊(i : ℚ) * ((s : ℚ) / (t : ℚ))⌋₊ : ℚ) ≤ 1 := by
    have := Nat.lt_floor_add_one ((i : ℚ) * ((s : ℚ) / (t : ℚ)))
    linarith
  have hinterp : interpAt x ((s : ℚ) / (t : ℚ)) i =
      x.getD ⌊(i : ℚ) * ((s : ℚ) / (t : ℚ))⌋₊ 0 *
        (1 - ((i : ℚ) * ((s : ℚ) / (t : ℚ))
          - (⌊(i : ℚ) * ((s : ℚ) / (t : ℚ))⌋₊ : ℚ))) +
      x.getD (⌊(i : ℚ) * ((s : ℚ) / (t : ℚ))⌋₊ + 1) 0 *
        ((i : ℚ) * ((s : ℚ) / (t : ℚ))
          - (⌊(i : ℚ) * ((s : ℚ) / (t : ℚ))⌋₊ : ℚ)) := by
    simp only [interpAt, if_pos hin]
  rw [hget, hinterp]
  exact convex_comb_between _ _ _ hf0 hf1

/-- Witness for C5 at `x = [0, 1, 2]`, `s = 3`, `t = 2`, `i = 1`: the output
sample `3/2` lies between `x[1] = 1` and `x[2] = 2`. -/
theorem resample_interp_bounded_witness :
    min (([(0 : ℚ), 1, 2]).getD ⌊((1 : Nat) : ℚ) * (((3 : Nat) : ℚ) / ((2 : Nat) : ℚ))⌋₊ 0)
        (([(0 : ℚ), 1, 2]).getD (⌊((1 : Nat) : ℚ) * (((3 : Nat) : ℚ) / ((2 : Nat) : ℚ))⌋₊ + 1) 0)
      ≤ (resample [(0 : ℚ), 1, 2] 3 2).getD 1 0 ∧
    (resample [(0 : ℚ), 1, 2] 3 2).getD 1 0
      ≤ max (([(0 : ℚ), 1, 2]).getD ⌊((1 : Nat) : ℚ) * (((3 : Nat) : ℚ) / ((2 : Nat) : ℚ))⌋₊ 0)
            (([(0 : ℚ), 1, 2]).getD (⌊((1 : Nat) : ℚ) * (((3 : Nat) : ℚ) / ((2 : Nat) : ℚ))⌋₊ + 1) 0) :=
  resample_interp_bounded [(0 : ℚ), 1, 2] 3 2 (by decide) 1
    (by rw [resample_length_eq [(0 : ℚ), 1, 2] 3 2 (by decide) (by decide) (by decide)]
        decide)
    (by have h : ⌊((1 : Nat) : ℚ) * (((3 : Nat) : ℚ) / ((2 : Nat) : ℚ))⌋₊ = 1 := by
          rw [Nat.floor_eq_iff (by positivity)]
          norm_num
        rw [h]
        decide)

/-- C6: `start` on an already-recording session returns the AlreadyRecording
error and returns the recorder with every field exactly as it was. -/
theorem start_already_recording (rec : AudioRecorder) (device_name : String)
    (h : rec.is_recording = true) :
    rec.start device_name = (rec, .error "Already recording") := by
  simp [AudioRecorder.start, h]

/-- Witness for C6: a recorder mid-session is left untouched by `start`. -/
theorem start_already_recording_witness :
    AudioRecorder.start
        { samples := [(5 : ℚ)], recording := true, sample_rate := 44100,
          thread_handle := some () } "default"
      = ({ samples := [(5 : ℚ)], recording := true, sample_rate := 44100,
           thread_handle := some () }, .error "Already recording") :=
  start_already_recording _ "default" rfl

/-- C7: `stop` on a recorder whose shared buffer holds zero samples returns
the EmptyRecording error. -/
theorem stop_empty_recording (rec : AudioRecorder)
    (h : rec.samples = []) :
    (rec.stop).2 = .error "No audio recorded" := by
  simp [AudioRecorder.stop, h]

/-- Witness for C7: stopping with an empty buffer errors. -/
theorem stop_empty_recording_witness :
    (AudioRecorder.stop
        { samples := [], recording := true, sample_rate := 48000,
          thread_handle := some () }).2 = .error "No audio recorded" :=
  stop_empty_recording _ rfl

/-- C10: after any `stop` — error or success — the recording flag is false,
the shared buffer is empty, the worker-thread handle is cleared, and a
subsequent `start` succeeds rather than reporting AlreadyRecording. -/
theorem stop_terminates_session (rec : AudioRecorder) (device_name : String) :
    ((rec.stop).1).is_recording = false ∧
    ((rec.stop).1).samples = [] ∧
    ((rec.stop).1).thread_handle = none ∧
    (((rec.stop).1).start device_name).2 = .ok () := by
  by_cases h : rec.samples.isEmpty <;>
    simp [AudioRecorder.stop, AudioRecorder.start, AudioRecorder.is_recording, h]

/-- Helper: a failed `load_model` attempt leaves the engine unchanged. -/
lemma load_model_failed_id (e : SttEngine) (msg : String) :
    (e.load_model (.error msg)).1 = e := by
  obtain ⟨inner⟩ := e
  cases inner with
  | whisper w => simp [SttEngine.load_model, WhisperEngine.load_model]
  | parakeet p => simp [SttEngine.load_model, ParakeetEngine.load_model]

/-- Helper: a run of load attempts none of which succeeded leaves the engine
unchanged. -/
lemma runLoads_all_failed_id (outcomes : List (Except String Unit)) :
    ∀ e : SttEngine, (∀ o ∈ outcomes, o.isOk = false) →
      e.runLoads outcomes = e := by
  induction outcomes with
  | nil => intro e _; rfl
  | cons o rest ih =>
      intro e hfail
      have ho : o.isOk = false := hfail o (List.mem_cons_self o rest)
      obtain ⟨msg, rfl⟩ : ∃ msg, o = .error msg := by
        cases o with
        | error m => exact ⟨m, rfl⟩
        | ok v => simp [Except.isOk, Except.toBool] at ho
      have hrest : ∀ x ∈ rest, x.isOk = false := fun x hx =>
        hfail x (List.mem_cons_of_mem _ hx)
      show ((e.load_model (.error msg)).1).runLoads rest = e
      rw [load_model_failed_id, ih e hrest]

/-- Helper: a freshly constructed engine (either variant) reports not loaded. -/
lemma from_engine_name_not_loaded_aux (name : String) :
    (SttEngine.from_engine_name name).is_loaded = false := by
  by_cases h : name = "parakeet" <;>
    simp [SttEngine.from_engine_name, h, SttEngine.new_parakeet,
      SttEngine.new_whisper, SttEngine.is_loaded, WhisperEngine.new,
      ParakeetEngine.new, WhisperEngine.is_loaded, ParakeetEngine.is_loaded]

/-- Helper: an engine that reports not loaded refuses to transcribe with its
variant's not-loaded error and never invokes the backend. -/
lemma transcribe_not_loaded_aux (e : SttEngine) (h : e.is_loaded = false)
    (backend : List ℚ → String → Except String String)
    (samples : List ℚ) (language : String) :
    (e.transcribe backend samples language).2 = false ∧
    ((e.transcribe backend samples language).1 = .error "Whisper model not loaded" ∨
     (e.transcribe backend samples language).1 = .error "Parakeet model not loaded") := by
  cases hin : e.inner with
  | whisper w =>
      cases hctx : w.ctx with
      | none =>
          simp [SttEngine.transcribe, hin, WhisperEngine.transcribe, hctx]
      | some u =>
          exfalso
          simp [SttEngine.is_loaded, hin, WhisperEngine.is_loaded, hctx] at h
  | parakeet p =>
      cases hm : p.model with
      | none =>
          simp [SttEngine.transcribe, hin, ParakeetEngine.transcribe, hm]
      | some u =>
          exfalso
          simp [SttEngine.is_loaded, hin, ParakeetEngine.is_loaded, hm] at h

/-- C8: for both backend variants, `transcribe` on an engine on which no
`load_model` ever completed successfully returns the not-loaded error without
invoking the backend. -/
theorem transcribe_never_loaded (name : String)
    (outcomes : List (Except String Unit))
    (hfail : ∀ o ∈ outcomes, o.isOk = false)
    (backend : List ℚ → String → Except String String)
    (samples : List ℚ) (language : String) :
    (((SttEngine.from_engine_name name).runLoads outcomes).transcribe
        backend samples language).2 = false ∧
    ((((SttEngine.from_engine_name name).runLoads outcomes).transcribe
        backend samples language).1 = .error "Whisper model not loaded" ∨
     (((SttEngine.from_engine_name name).runLoads outcomes).transcribe
        backend samples language).1 = .error "Parakeet model not loaded") := by
  rw [runLoads_all_failed_id outcomes _ hfail]
  exact transcribe_not_loaded_aux _ (from_engine_name_not_loaded_aux name)
    backend samples language

/-- Witness for C8: a fresh whisper engine after one failed load attempt
refuses to transcribe and leaves the backend untouched. -/
theorem transcribe_never_loaded_witness :
    (((SttEngine.from_engine_name "whisper").runLoads [.error "missing"]).transcribe
        (fun _ _ => .ok "hello") [(1 : ℚ)] "auto").2 = false ∧
    ((((SttEngine.from_engine_name "whisper").runLoads [.error "missing"]).transcribe
        (fun _ _ => .ok "hello") [(1 : ℚ)] "auto").1 = .error "Whisper model not loaded" ∨
     (((SttEngine.from_engine_name "whisper").runLoads [.error "missing"]).transcribe
        (fun _ _ => .ok "hello") [(1 : ℚ)] "auto").1 = .error "Parakeet model not loaded") :=
  transcribe_never_loaded "whisper" [.error "missing"]
    (by simp [Except.isOk, Except.toBool]) (fun _ _ => .ok "hello") [(1 : ℚ)] "auto"

/-- C9: an engine handle freshly produced by `from_engine_name` reports
`is_loaded() == false` for every engine name, and it stays false across any
sequence of load attempts none of which succeeds. -/
theorem from_engine_name_discards_loaded_state (name : String)
    (outcomes : List (Except String Unit))
    (hfail : ∀ o ∈ outcomes, o.isOk = false) :
    (SttEngine.from_engine_name name).is_loaded = false ∧
    ((SttEngine.from_engine_name name).runLoads outcomes).is_loaded = false := by
  refine ⟨from_engine_name_not_loaded_aux name, ?_⟩
  rw [runLoads_all_failed_id outcomes _ hfail]
  exact from_engine_name_not_loaded_aux name

/-- Witness for C9: switching to the parakeet variant yields an unloaded
engine, still unloaded after a failed load attempt. -/
theorem from_engine_name_discards_loaded_state_witness :
    (SttEngine.from_engine_name "parakeet").is_loaded = false ∧
    ((SttEngine.from_engine_name "parakeet").runLoads [.error "bad dir"]).is_loaded = false :=
  from_engine_name_discards_loaded_state "parakeet" [.error "bad dir"]
    (by simp [Except.isOk, Except.toBool])

/-- Helper: `stop` always leaves the flag false, the buffer empty, and the
thread handle cleared, keeping only the sample rate. -/
lemma stop_state (rec : AudioRecorder) :
    (rec.stop).1 =
      { samples := [], recording := false, sample_rate := rec.sample_rate,
        thread_handle := none } := by
  by_cases h : rec.samples.isEmpty <;> simp [AudioRecorder.stop, h]

/-- C1: when `stop` succeeds and the raw captured samples are near-silent,
the toggle-stop path emits exactly one error event — the silence message
naming the configured device — calls no transcription, hands nothing to the
paste collaborator, and leaves the recorder idle. -/
theorem toggle_stop_silence (rec : AudioRecorder) (device language : String)
    (engineLoaded : Bool)
    (transcribeFn : List ℚ → String → TranscribeOutcome)
    (pasteOutcome : Except String Unit)
    (samples : List ℚ) (sample_rate : Nat)
    (hstop : (rec.stop).2 = .ok (samples, sample_rate))
    (hsilent : isNearSilent samples = true) :
    (do_toggle_stop rec device language engineLoaded transcribeFn
        pasteOutcome).errorEvents = [silenceMsgHead ++ device ++ silenceMsgTail] ∧
    (do_toggle_stop rec device language engineLoaded transcribeFn
        pasteOutcome).transcribeCalled = false ∧
    (do_toggle_stop rec device language engineLoaded transcribeFn
        pasteOutcome).handedToPaste = none ∧
    ((do_toggle_stop rec device language engineLoaded transcribeFn
        pasteOutcome).recorder).is_recording = false := by
  simp [do_toggle_stop, hstop, hsilent, stop_state, AudioRecorder.is_recording]

/-- Witness for C1: one second worth of zeros (truncated here to three zero
samples — the RMS is 0 either way) at 48 kHz with device `"default"`. -/
theorem toggle_stop_silence_witness :
    (do_toggle_stop
        { samples := [0, 0, 0], recording := true, sample_rate := 48000,
          thread_handle := some () }
        "default" "auto" true (fun _ _ => .ok "hi") (.ok ())).errorEvents
      = [silenceMsgHead ++ "default" ++ silenceMsgTail] ∧
    (do_toggle_stop
        { samples := [0, 0, 0], recording := true, sample_rate := 48000,
          thread_handle := some () }
        "default" "auto" true (fun _ _ => .ok "hi") (.ok ())).transcribeCalled = false ∧
    (do_toggle_stop
        { samples := [0, 0, 0], recording := true, sample_rate := 48000,
          thread_handle := some () }
        "default" "auto" true (fun _ _ => .ok "hi") (.ok ())).handedToPaste = none ∧
    ((do_toggle_stop
        { samples := [0, 0, 0], recording := true, sample_rate := 48000,
          thread_handle := some () }
        "default" "auto" true (fun _ _ => .ok "hi") (.ok ())).recorder).is_recording = false :=
  toggle_stop_silence _ "default" "auto" true (fun _ _ => .ok "hi") (.ok ())
    [0, 0, 0] 48000 rfl
    (by norm_num [isNearSilent, meanSquare, silenceThreshold])

/-- C2: a panic raised inside the `SttEngine::transcribe` call is caught at
the `catch_unwind` boundary: the toggle-stop path still returns a value,
emits exactly one crash error event, hands nothing to the paste collaborator,
and leaves the recorder idle. -/
theorem toggle_stop_panic_caught (rec : AudioRecorder) (device language : String)
    (transcribeFn : List ℚ → String → TranscribeOutcome)
    (pasteOutcome : Except String Unit)
    (samples : List ℚ) (sample_rate : Nat)
    (hstop : (rec.stop).2 = .ok (samples, sample_rate))
    (hsound : isNearSilent samples = false)
    (hpanic : transcribeFn (resample samples sample_rate 16000) language
      = .panic) :
    (do_toggle_stop rec device language true transcribeFn
        pasteOutcome).errorEvents = [crashErrorMsg] ∧
    (do_toggle_stop rec device language true transcribeFn
        pasteOutcome).handedToPaste = none ∧
    ((do_toggle_stop rec device language true transcribeFn
        pasteOutcome).recorder).is_recording = false := by
  simp [do_toggle_stop, hstop, hsound, hpanic, stop_state,
    AudioRecorder.is_recording]

/-- Witness for C2: a loud buffer at 16 kHz whose transcription panics. -/
theorem toggle_stop_panic_caught_witness :
    (do_toggle_stop
        { samples := [1, 1], recording := true, sample_rate := 16000,
          thread_handle := some () }
        "default" "auto" true (fun _ _ => .panic) (.ok ())).errorEvents
      = [crashErrorMsg] ∧
    (do_toggle_stop
        { samples := [1, 1], recording := true, sample_rate := 16000,
          thread_handle := some () }
        "default" "auto" true (fun _ _ => .panic) (.ok ())).handedToPaste = none ∧
    ((do_toggle_stop
        { samples := [1, 1], recording := true, sample_rate := 16000,
          thread_handle := some () }
        "default" "auto" true (fun _ _ => .panic) (.ok ())).recorder).is_recording = false :=
  toggle_stop_panic_caught _ "default" "auto" (fun _ _ => .panic) (.ok ())
    [1, 1] 16000 rfl
    (by norm_num [isNearSilent, meanSquare, silenceThreshold])
    rfl
